import Mathlib

/-!
# Verification of the AgriSite land-analysis aggregation and reporting layer

Shallow embedding of the aggregation/reporting core of the AgriSite Django
application (`land_analysis` app).  Django ORM rows become Lean structures,
querysets become lists, and the grouped aggregation queries
(`.values(...).annotate(...)`, `.aggregate(...)`) become explicit list
computations.  `DecimalField` values are modelled as rationals (`ℚ`).
SQL `NULL` (the value of `Sum`/`Avg` over an empty queryset, and the result
of NULL-propagating arithmetic such as `Avg(a) / Avg(b)` on an empty set)
is modelled as `Option ℚ` with `none` for `NULL`.
-/

namespace Agrisite

/-- `models.Region`: name, unique code, total area. -/
structure Region where
  id : Nat
  name : String
  code : String
  total_area : ℚ
deriving DecidableEq, Repr

/-- `models.LandHolder`: belongs to one `Region` (non-null FK). -/
structure LandHolder where
  id : Nat
  name : String
  ownership_type : String
  region_id : Nat
deriving DecidableEq, Repr

/-- `models.LandParcel`: belongs to one `LandHolder` (non-null FK). -/
structure LandParcel where
  id : Nat
  land_holder_id : Nat
  parcel_id : String
  total_area : ℚ
  cultivated_area : ℚ
  soil_type : String
deriving DecidableEq, Repr

/-- `models.IrrigationSystem`: one-to-one with a `LandParcel`. -/
structure IrrigationSystem where
  id : Nat
  land_parcel_id : Nat
  system_type : String
  water_source : String
  efficiency_rating : Int
  annual_water_usage : ℚ
  is_automated : Bool
deriving DecidableEq, Repr

/-- `models.Crop`. -/
structure Crop where
  id : Nat
  name : String
  crop_type : String
  season : String
deriving DecidableEq, Repr

/-- `models.CroppingPattern`: belongs to one `LandParcel` and one `Crop`. -/
structure CroppingPattern where
  id : Nat
  land_parcel_id : Nat
  crop_id : Nat
  year : Int
  season : String
  area_allocated : ℚ
  yield_amount : ℚ
  revenue : ℚ
deriving DecidableEq, Repr

/-- The persistent entity store (the relational database state). -/
structure Store where
  regions : List Region
  holders : List LandHolder
  parcels : List LandParcel
  irrigations : List IrrigationSystem
  crops : List Crop
  patterns : List CroppingPattern
deriving DecidableEq, Repr

/-- The store with every table empty. -/
def emptyStore : Store := ⟨[], [], [], [], [], []⟩

/-! ## Django / SQL aggregate primitives -/

/-- Django `aggregate(Sum(f))`: `NULL` (`none`) over an empty queryset,
otherwise the sum of the column. -/
def djSum (l : List ℚ) : Option ℚ :=
  if l.isEmpty then none else some l.sum

/-- Django `aggregate(Avg(f))`: `NULL` over an empty queryset, otherwise
the column sum divided by the row count. -/
def djAvg (l : List ℚ) : Option ℚ :=
  if l.isEmpty then none else some (l.sum / l.length)

/-- NULL-propagating SQL division (SQLite also yields `NULL` for a zero
divisor rather than raising). -/
def sqlDiv : Option ℚ → Option ℚ → Option ℚ
  | some a, some b => if b = 0 then none else some (a / b)
  | _, _ => none

/-- NULL-propagating multiplication by a constant. -/
def sqlMul (x : Option ℚ) (c : ℚ) : Option ℚ := x.map (· * c)

/-! ## Foreign-key joins -/

/-- Resolve `parcel.land_holder`. -/
def holderOf (s : Store) (p : LandParcel) : Option LandHolder :=
  s.holders.find? (fun h => h.id == p.land_holder_id)

/-- Resolve `parcel.land_holder.region_id` (the spanning lookup
`land_holder__region_id`). -/
def parcelRegionId (s : Store) (p : LandParcel) : Option Nat :=
  (holderOf s p).map (fun h => h.region_id)

/-- Resolve `parcel.land_holder.region`. -/
def parcelRegion (s : Store) (p : LandParcel) : Option Region :=
  match parcelRegionId s p with
  | some rid => s.regions.find? (fun r => r.id == rid)
  | none => none

/-- Resolve `pattern.land_parcel`. -/
def parcelOfPattern (s : Store) (cp : CroppingPattern) : Option LandParcel :=
  s.parcels.find? (fun p => p.id == cp.land_parcel_id)

/-- Resolve `pattern.crop`. -/
def cropOfPattern (s : Store) (cp : CroppingPattern) : Option Crop :=
  s.crops.find? (fun c => c.id == cp.crop_id)

/-- The spanning lookup `crop__name` on a cropping pattern. -/
def cropNameOf (s : Store) (cp : CroppingPattern) : Option String :=
  (cropOfPattern s cp).map (fun c => c.name)

/-- The spanning lookup `land_parcel__land_holder__region_id` on a
cropping pattern. -/
def patternRegionId (s : Store) (cp : CroppingPattern) : Option Nat :=
  match parcelOfPattern s cp with
  | some p => parcelRegionId s p
  | none => none

/-- Resolve `irrigation.land_parcel`. -/
def parcelOfIrrigation (s : Store) (ir : IrrigationSystem) : Option LandParcel :=
  s.parcels.find? (fun p => p.id == ir.land_parcel_id)

/-- The spanning lookup `land_parcel__land_holder__region_id` on an
irrigation system. -/
def irrigationRegionId (s : Store) (ir : IrrigationSystem) : Option Nat :=
  match parcelOfIrrigation s ir with
  | some p => parcelRegionId s p
  | none => none

/-! ## `utils.calculate_land_utilization_efficiency` -/

/-- Result record of `utils.calculate_land_utilization_efficiency`. -/
structure UtilizationMetrics where
  total_land : ℚ
  cultivated_land : ℚ
  utilization_rate : ℚ
  uncultivated_land : ℚ
deriving DecidableEq, Repr

/-- `utils.calculate_land_utilization_efficiency`: sums total and
cultivated area over all parcels (`or 0` turns the empty-set `NULL` into
`0`), derives the utilization rate guarded by `total_land > 0`, and the
uncultivated remainder. -/
def calculate_land_utilization_efficiency (parcels : List LandParcel) :
    UtilizationMetrics :=
  let total_land := (djSum (parcels.map (fun p => p.total_area))).getD 0
  let cultivated_land := (djSum (parcels.map (fun p => p.cultivated_area))).getD 0
  let utilization_rate :=
    if total_land > 0 then cultivated_land / total_land * 100 else 0
  { total_land := total_land
    cultivated_land := cultivated_land
    utilization_rate := utilization_rate
    uncultivated_land := total_land - cultivated_land }

/-! ## Grouped queries (`.values(key).annotate(...)`)

A grouped query produces one row per distinct key value; each row's
aggregates range over the records carrying that key. -/

/-- The distinct key values of a grouped query. -/
def groupKeys {α κ : Type} [DecidableEq κ] (l : List α) (key : α → κ) : List κ :=
  (l.map key).dedup

/-- Row of `LandParcel.objects.values(soil_type).annotate(count=Count(id),
total_area=Sum(total_area))`. -/
structure SoilGroup where
  soil_type : String
  count : Nat
  total_area : ℚ
deriving DecidableEq, Repr

/-- Soil-type distribution over a (possibly filtered) list of parcels. -/
def soilDistribution (parcels : List LandParcel) : List SoilGroup :=
  (groupKeys parcels (fun p => p.soil_type)).map fun st =>
    let grp := parcels.filter (fun p => p.soil_type = st)
    { soil_type := st
      count := grp.length
      total_area := (grp.map (fun p => p.total_area)).sum }

/-- Row of `IrrigationSystem.objects.values(system_type).annotate(
count=Count(id), avg_efficiency=Avg(efficiency_rating))`. -/
structure IrrGroup where
  system_type : String
  count : Nat
  avg_efficiency : ℚ
deriving DecidableEq, Repr

/-- Irrigation-system distribution over a (possibly filtered) list of
systems.  Each group is nonempty by construction, so `Avg` never sees an
empty set here. -/
def irrigationGroups (irs : List IrrigationSystem) : List IrrGroup :=
  (groupKeys irs (fun ir => ir.system_type)).map fun st =>
    let grp := irs.filter (fun ir => ir.system_type = st)
    { system_type := st
      count := grp.length
      avg_efficiency := (grp.map (fun ir => (ir.efficiency_rating : ℚ))).sum / grp.length }

/-- Row of `cropping_patterns.values(crop__crop_type).annotate(
total_area=Sum(area_allocated), avg_yield=Avg(yield_amount))`. -/
structure CropTypeGroup where
  crop_type : Option String
  total_area : ℚ
  avg_yield : ℚ
deriving DecidableEq, Repr

/-- The spanning lookup `crop__crop_type` on a cropping pattern. -/
def cropTypeOf (s : Store) (cp : CroppingPattern) : Option String :=
  (cropOfPattern s cp).map (fun c => c.crop_type)

/-- Crop-type distribution over a (possibly filtered) list of patterns. -/
def cropTypeGroups (s : Store) (cps : List CroppingPattern) : List CropTypeGroup :=
  (groupKeys cps (fun cp => cropTypeOf s cp)).map fun ct =>
    let grp := cps.filter (fun cp => cropTypeOf s cp = ct)
    { crop_type := ct
      total_area := (grp.map (fun cp => cp.area_allocated)).sum
      avg_yield := (grp.map (fun cp => cp.yield_amount)).sum / grp.length }

/-- Row of `LandParcel.objects.values(land_holder__region__name).annotate(
parcel_count=Count(id), total_area=Sum(total_area),
cultivated_area=Sum(cultivated_area))`. -/
structure RegionStatRow where
  region_name : Option String
  parcel_count : Nat
  total_area : ℚ
  cultivated_area : ℚ
deriving DecidableEq, Repr

/-- The spanning lookup `land_holder__region__name` on a parcel. -/
def parcelRegionName (s : Store) (p : LandParcel) : Option String :=
  (parcelRegion s p).map (fun r => r.name)

/-- Per-region parcel statistics over all parcels. -/
def regionStatRows (s : Store) : List RegionStatRow :=
  (groupKeys s.parcels (fun p => parcelRegionName s p)).map fun rn =>
    let grp := s.parcels.filter (fun p => parcelRegionName s p = rn)
    { region_name := rn
      parcel_count := grp.length
      total_area := (grp.map (fun p => p.total_area)).sum
      cultivated_area := (grp.map (fun p => p.cultivated_area)).sum }

/-! ## `views.api_land_stats` -/

/-- The sequential `region` then `soil_type` filters applied to the
parcel queryset in `api_land_stats`. -/
def filterParcels (s : Store) (region_id : Option Nat) (soil_type : Option String) :
    List LandParcel :=
  let ps := match region_id with
    | some rid => s.parcels.filter (fun p => parcelRegionId s p == some rid)
    | none => s.parcels
  match soil_type with
  | some st => ps.filter (fun p => p.soil_type == st)
  | none => ps

/-- The filters applied to the irrigation-system queryset in
`api_land_stats` (both conditions span to the owning parcel). -/
def filterIrrigations (s : Store) (region_id : Option Nat) (soil_type : Option String) :
    List IrrigationSystem :=
  let irs := match region_id with
    | some rid => s.irrigations.filter (fun ir => irrigationRegionId s ir == some rid)
    | none => s.irrigations
  match soil_type with
  | some st =>
      irs.filter (fun ir => ((parcelOfIrrigation s ir).map (fun p => p.soil_type)) == some st)
  | none => irs

/-- The filters applied to the cropping-pattern queryset in
`api_land_stats`. -/
def filterPatterns (s : Store) (region_id : Option Nat) (soil_type : Option String) :
    List CroppingPattern :=
  let cps := match region_id with
    | some rid => s.patterns.filter (fun cp => patternRegionId s cp == some rid)
    | none => s.patterns
  match soil_type with
  | some st =>
      cps.filter (fun cp => ((parcelOfPattern s cp).map (fun p => p.soil_type)) == some st)
  | none => cps

/-- The JSON payload of `views.api_land_stats` on the success path. -/
structure ApiLandStats where
  soil_distribution : List SoilGroup
  irrigation_distribution : List IrrGroup
  crop_distribution : List CropTypeGroup
  region_stats : List RegionStatRow
  status : String
deriving DecidableEq, Repr

/-- `views.api_land_stats`: applies the optional `region` and `soil_type`
filters, runs the four grouped queries, and returns the JSON payload.
`region_stats` is computed over all parcels, unfiltered, as in the source;
`time_period` is accepted but unused, as in the source. -/
def api_land_stats (s : Store) (region_id : Option Nat) (soil_type : Option String)
    (time_period : String) : ApiLandStats :=
  let _ := time_period
  { soil_distribution := soilDistribution (filterParcels s region_id soil_type)
    irrigation_distribution := irrigationGroups (filterIrrigations s region_id soil_type)
    crop_distribution := cropTypeGroups s (filterPatterns s region_id soil_type)
    region_stats := regionStatRows s
    status := "success" }

/-! ## `views.region_analysis` -/

/-- The `aggregate(...)` dictionary computed over the region's parcels.
`Sum`/`Avg` over an empty set is SQL `NULL` (`none`), and the combined
expression `Avg(cultivated_area) / Avg(total_area) * 100` propagates
`NULL`. -/
structure RegionStats where
  total_parcels : Nat
  total_area : Option ℚ
  avg_parcel_size : Option ℚ
  cultivated_percentage : Option ℚ
deriving DecidableEq, Repr

/-- Row of the `top_crops` grouped query in `region_analysis`. -/
structure RegionCropRow where
  crop_name : Option String
  crop_id : Nat
  total_area : ℚ
  avg_yield : ℚ
  total_revenue : ℚ
deriving DecidableEq, Repr

/-- Insert into a list kept in descending `f`-order. -/
def insertDescBy {α : Type} (f : α → ℚ) (x : α) : List α → List α
  | [] => [x]
  | y :: ys => if f y ≤ f x then x :: y :: ys else y :: insertDescBy f x ys

/-- Sort a list in descending `f`-order (the `order_by` of the query). -/
def sortDescBy {α : Type} (f : α → ℚ) : List α → List α
  | [] => []
  | x :: xs => insertDescBy f x (sortDescBy f xs)

/-- Parcels of the region (`land_holder__region = region`). -/
def regionScopedParcels (s : Store) (rid : Nat) : List LandParcel :=
  s.parcels.filter (fun p => parcelRegionId s p == some rid)

/-- Cropping patterns of the region
(`land_parcel__land_holder__region = region`). -/
def regionScopedPatterns (s : Store) (rid : Nat) : List CroppingPattern :=
  s.patterns.filter (fun cp => patternRegionId s cp == some rid)

/-- Irrigation systems of the region
(`land_parcel__land_holder__region = region`). -/
def regionScopedIrrigations (s : Store) (rid : Nat) : List IrrigationSystem :=
  s.irrigations.filter (fun ir => irrigationRegionId s ir == some rid)

/-- The `top_crops` grouped query of `region_analysis`: region-scoped
patterns grouped by `(crop__name, crop__id)`. -/
def regionCropGroups (s : Store) (rid : Nat) : List RegionCropRow :=
  let cps := regionScopedPatterns s rid
  (groupKeys cps (fun cp => (cropNameOf s cp, cp.crop_id))).map fun k =>
    let grp := cps.filter (fun cp => (cropNameOf s cp, cp.crop_id) = k)
    { crop_name := k.1
      crop_id := k.2
      total_area := (grp.map (fun cp => cp.area_allocated)).sum
      avg_yield := (grp.map (fun cp => cp.yield_amount)).sum / grp.length
      total_revenue := (grp.map (fun cp => cp.revenue)).sum }

/-- The rendering context assembled by `views.region_analysis`. -/
structure RegionAnalysisResult where
  region_stats : RegionStats
  top_crops : List RegionCropRow
  soil_distribution : List SoilGroup
  irrigation_systems : List IrrGroup
deriving DecidableEq, Repr

/-- `views.region_analysis`: `get_object_or_404` on the region (modelled
as `none` for the 404 path) followed by the four region-scoped queries. -/
def region_analysis (s : Store) (region_id : Nat) : Option RegionAnalysisResult :=
  if s.regions.any (fun r => r.id == region_id) then
    let ps := regionScopedParcels s region_id
    some
      { region_stats :=
          { total_parcels := ps.length
            total_area := djSum (ps.map (fun p => p.total_area))
            avg_parcel_size := djAvg (ps.map (fun p => p.total_area))
            cultivated_percentage :=
              sqlMul (sqlDiv (djAvg (ps.map (fun p => p.cultivated_area)))
                             (djAvg (ps.map (fun p => p.total_area)))) 100 }
        top_crops := (sortDescBy (fun g => g.total_area) (regionCropGroups s region_id)).take 10
        soil_distribution := soilDistribution ps
        irrigation_systems := irrigationGroups (regionScopedIrrigations s region_id) }
  else none

/-! ## `views.crop_analysis` (the `crop_stats` aggregate) -/

/-- The `aggregate(...)` dictionary of `crop_analysis`: the code derives
`avg_yield_per_hectare` as `Avg(yield_amount) / Avg(area_allocated)`. -/
structure CropStats where
  total_area : Option ℚ
  total_yield : Option ℚ
  avg_yield_per_hectare : Option ℚ
  total_revenue : Option ℚ
  avg_revenue_per_hectare : Option ℚ
deriving DecidableEq, Repr

/-- Cropping patterns of one crop (`filter(crop=crop)`). -/
def cropScopedPatterns (s : Store) (cid : Nat) : List CroppingPattern :=
  s.patterns.filter (fun cp => cp.crop_id == cid)

/-- The `crop_stats` aggregate of `views.crop_analysis`. -/
def crop_stats (s : Store) (cid : Nat) : CropStats :=
  let cps := cropScopedPatterns s cid
  { total_area := djSum (cps.map (fun cp => cp.area_allocated))
    total_yield := djSum (cps.map (fun cp => cp.yield_amount))
    avg_yield_per_hectare :=
      sqlDiv (djAvg (cps.map (fun cp => cp.yield_amount)))
             (djAvg (cps.map (fun cp => cp.area_allocated)))
    total_revenue := djSum (cps.map (fun cp => cp.revenue))
    avg_revenue_per_hectare :=
      sqlDiv (djAvg (cps.map (fun cp => cp.revenue)))
             (djAvg (cps.map (fun cp => cp.area_allocated))) }

/-! ## `utils.generate_land_analysis_charts` — the crop-productivity chart -/

/-- Row of the crop-productivity grouped query in
`generate_land_analysis_charts` (chart 3). -/
structure CropChartGroup where
  crop_name : Option String
  total_yield : ℚ
  total_area : ℚ
deriving DecidableEq, Repr

/-- The `crop_data` queryset of chart 3: patterns grouped by `crop__name`,
sliced to the first 10 rows. -/
def cropChartGroups (s : Store) : List CropChartGroup :=
  ((groupKeys s.patterns (fun cp => cropNameOf s cp)).map fun nm =>
    let grp := s.patterns.filter (fun cp => cropNameOf s cp = nm)
    { crop_name := nm
      total_yield := (grp.map (fun cp => cp.yield_amount)).sum
      total_area := (grp.map (fun cp => cp.area_allocated)).sum }).take 10

/-- The rows for which chart 3 performs the productivity division
`total_yield / total_area`.  The source guards the whole frame with
`(df_crop[total_area] > 0).any()` — when any row has positive area the
division is applied to every row of the frame, zero-area rows included;
when no row does (or the frame is empty) no division is performed. -/
def productivityDivisionGroups (s : Store) : List CropChartGroup :=
  let gs := cropChartGroups s
  if !gs.isEmpty && gs.any (fun g => decide (0 < g.total_area)) then gs else []

/-! ## `forms.LandParcelForm.clean` -/

/-- `forms.LandParcelForm.clean`, returning `true` when the submission is
accepted (no `ValidationError`).  The guard `if total_area and
cultivated_area:` uses Python truthiness, under which a zero `Decimal` is
falsy, so the comparison runs only when both areas are nonzero. -/
def LandParcelForm.clean (total_area cultivated_area : ℚ) : Bool :=
  if total_area ≠ 0 ∧ cultivated_area ≠ 0 then
    if cultivated_area > total_area then false else true
  else true

/-! ## Report renderer

Table cells keep the underlying value together with the formatting the
source applies (plain string, count, 2-decimal area, currency, percent,
water volume); the glyph-level string rendering of numbers is not
re-modelled.  `null` stands for a SQL `NULL` propagated into a cell. -/

/-- A table cell of a rendered report or export. -/
inductive Cell where
  | s (text : String)
  | int (val : Int)
  | area (val : ℚ)
  | cur (val : ℚ)
  | pct (val : ℚ)
  | vol (val : ℚ)
  | num (val : ℚ)
  | null
deriving DecidableEq, Repr

/-- A flowable of the generated document (`Paragraph`, `Spacer`,
`Table`). -/
inductive StoryElem where
  | para (text : String)
  | spacer
  | table (rows : List (List Cell))
deriving DecidableEq, Repr

/-- Python `str.title()` on ASCII text: the first letter of every
alphabetic run is uppercased, the rest lowercased. -/
def pyTitleAux : Bool → List Char → List Char
  | _, [] => []
  | prevAlpha, c :: rest =>
    let c' := if c.isAlpha then (if prevAlpha then c.toLower else c.toUpper) else c
    c' :: pyTitleAux c.isAlpha rest

/-- Python `str.title()`. -/
def pyTitle (t : String) : String := ⟨pyTitleAux false t.data⟩

/-- Django `get_soil_type_display()`: map the stored enum value to its
display label, falling back to the raw value. -/
def SOIL_TYPES : List (String × String) :=
  [("clay", "Clay"), ("sandy", "Sandy"), ("loamy", "Loamy"),
   ("silt", "Silt"), ("peat", "Peat"), ("chalky", "Chalky")]

/-- `parcel.get_soil_type_display()`. -/
def soilTypeDisplay (st : String) : String :=
  ((SOIL_TYPES.find? (fun kv => kv.1 == st)).map (fun kv => kv.2)).getD st

/-- `_generate_summary_report`: heading, executive-summary table, spacer. -/
def summaryReport (s : Store) : List StoryElem :=
  let total_land_holders := s.holders.length
  let total_parcels := s.parcels.length
  let total_cultivated_area := (djSum (s.parcels.map (fun p => p.cultivated_area))).getD 0
  let total_revenue := (djSum (s.patterns.map (fun cp => cp.revenue))).getD 0
  [.para "Executive Summary",
   .table
     [[.s "Metric", .s "Value"],
      [.s "Total Land Holders", .int total_land_holders],
      [.s "Total Land Parcels", .int total_parcels],
      [.s "Total Cultivated Area", .area total_cultivated_area],
      [.s "Total Revenue Generated", .cur total_revenue]],
   .spacer]

/-- Row of `LandHolder.objects.values(ownership_type).annotate(
count=Count(id), total_land=Sum(parcels__total_area))`.  A holder with no
parcels contributes a `NULL` `total_land` (rendered as `0` via `or 0`). -/
structure OwnershipGroup where
  ownership_type : String
  count : Nat
  total_land : Option ℚ
deriving DecidableEq, Repr

/-- Land-holding analysis grouped by ownership type. -/
def ownershipGroups (s : Store) : List OwnershipGroup :=
  (groupKeys s.holders (fun h => h.ownership_type)).map fun ot =>
    let grp := s.holders.filter (fun h => h.ownership_type = ot)
    let areas := (grp.map fun h =>
      (s.parcels.filter (fun p => p.land_holder_id == h.id)).map
        (fun p => p.total_area)).flatten
    { ownership_type := ot
      count := grp.length
      total_land := djSum areas }

/-- `_generate_land_analysis_report`. -/
def landAnalysisReport (s : Store) : List StoryElem :=
  let gs := ownershipGroups s
  [StoryElem.para "Land Holding Analysis"] ++
  (if gs.isEmpty then [StoryElem.para "No land holding data available."]
   else
     [StoryElem.table
       ([[Cell.s "Ownership Type", Cell.s "Count", Cell.s "Total Land Area (hectares)"]] ++
        gs.map fun g =>
          [Cell.s g.ownership_type, Cell.int g.count, Cell.area (g.total_land.getD 0)])]) ++
  [StoryElem.spacer]

/-- Row of the crop-analysis grouped query (`crop__name` key, totals). -/
structure CropReportRow where
  crop_name : Option String
  total_area : ℚ
  total_yield : ℚ
  total_revenue : ℚ
deriving DecidableEq, Repr

/-- Patterns grouped by `crop__name`, ordered by descending revenue,
sliced to the first 10 rows. -/
def cropReportRows (s : Store) : List CropReportRow :=
  (sortDescBy (fun g => g.total_revenue)
    ((groupKeys s.patterns (fun cp => cropNameOf s cp)).map fun nm =>
      let grp := s.patterns.filter (fun cp => cropNameOf s cp = nm)
      { crop_name := nm
        total_area := (grp.map (fun cp => cp.area_allocated)).sum
        total_yield := (grp.map (fun cp => cp.yield_amount)).sum
        total_revenue := (grp.map (fun cp => cp.revenue)).sum })).take 10

/-- `_generate_crop_analysis_report`.  A row whose crop join came back
`NULL` is rendered as `Unknown`. -/
def cropAnalysisReport (s : Store) : List StoryElem :=
  let gs := cropReportRows s
  [StoryElem.para "Crop Productivity Analysis"] ++
  (if gs.isEmpty then [StoryElem.para "No crop data available."]
   else
     [StoryElem.table
       ([[Cell.s "Crop Name", Cell.s "Area (hectares)", Cell.s "Total Yield", Cell.s "Revenue"]] ++
        gs.map fun g =>
          [Cell.s (g.crop_name.getD "Unknown"), Cell.area g.total_area,
           Cell.area g.total_yield, Cell.cur g.total_revenue])]) ++
  [StoryElem.spacer]

/-- Row of the irrigation-analysis grouped query. -/
structure IrrReportRow where
  system_type : String
  count : Nat
  avg_efficiency : ℚ
  avg_water_usage : ℚ
deriving DecidableEq, Repr

/-- Irrigation systems grouped by system type with average efficiency and
water usage. -/
def irrReportRows (s : Store) : List IrrReportRow :=
  (groupKeys s.irrigations (fun ir => ir.system_type)).map fun st =>
    let grp := s.irrigations.filter (fun ir => ir.system_type = st)
    { system_type := st
      count := grp.length
      avg_efficiency := (grp.map (fun ir => (ir.efficiency_rating : ℚ))).sum / grp.length
      avg_water_usage := (grp.map (fun ir => ir.annual_water_usage)).sum / grp.length }

/-- `_generate_irrigation_analysis_report`. -/
def irrigationAnalysisReport (s : Store) : List StoryElem :=
  let gs := irrReportRows s
  [StoryElem.para "Irrigation System Analysis"] ++
  (if gs.isEmpty then [StoryElem.para "No irrigation data available."]
   else
     [StoryElem.table
       ([[Cell.s "System Type", Cell.s "Count", Cell.s "Avg Efficiency", Cell.s "Avg Water Usage"]] ++
        gs.map fun g =>
          [Cell.s g.system_type, Cell.int g.count, Cell.pct g.avg_efficiency,
           Cell.vol g.avg_water_usage])]) ++
  [StoryElem.spacer]

/-- The five fixed recommendation bullets appended by the comprehensive
report. -/
def recommendationParas : List StoryElem :=
  [.para "Consider expanding high-revenue crop cultivation",
   .para "Optimize irrigation systems for better water efficiency",
   .para "Implement soil health improvement programs",
   .para "Explore diversification of crop patterns",
   .para "Invest in modern agricultural technologies"]

/-- `_generate_comprehensive_report`: all four sections in order, then the
recommendations heading and bullets. -/
def comprehensiveReport (s : Store) : List StoryElem :=
  summaryReport s ++ landAnalysisReport s ++ cropAnalysisReport s ++
  irrigationAnalysisReport s ++ [StoryElem.para "Recommendations"] ++ recommendationParas

/-- The title block every analysis report starts with: styled title with
the title-cased report type, spacer, generation date line, spacer. -/
def titleBlock (report_type date : String) : List StoryElem :=
  [.para ("Agricultural Analysis Report - " ++ pyTitle report_type), .spacer,
   .para ("Generated on: " ++ date), .spacer]

/-- The full story of `download_analysis_report`: title block followed by
the branch selected on `report_type`, with the fall-through branch
appending the single invalid-report-type paragraph. -/
def buildStory (s : Store) (report_type date : String) : List StoryElem :=
  titleBlock report_type date ++
  (if report_type = "summary" then summaryReport s
   else if report_type = "land_analysis" then landAnalysisReport s
   else if report_type = "crop_analysis" then cropAnalysisReport s
   else if report_type = "irrigation_analysis" then irrigationAnalysisReport s
   else if report_type = "comprehensive" then comprehensiveReport s
   else [.para "Invalid report type selected."])

/-- Response of `views.download_analysis_report`: either the built PDF
document as an attachment, or (when ReportLab is missing) an error flash
message plus redirect to the `analysis_reports` page. -/
inductive AnalysisReportResponse where
  | pdfDocument (filename : String) (story : List StoryElem)
  | redirectWithError (target msg : String)
deriving DecidableEq, Repr

/-- Whether the response is a downloadable artifact. -/
def AnalysisReportResponse.isDownload : AnalysisReportResponse → Bool
  | .pdfDocument _ _ => true
  | .redirectWithError _ _ => false

/-- `views.download_analysis_report`.  The ReportLab availability probe is
the import-time flag `REPORTLAB_AVAILABLE`, passed here explicitly; when
it is false the view flashes an error and redirects instead of producing
any download. -/
def download_analysis_report (reportlabAvailable : Bool) (s : Store)
    (report_type date : String) : AnalysisReportResponse :=
  if !reportlabAvailable then
    .redirectWithError "analysis_reports"
      "PDF generation is not available. Please install ReportLab."
  else
    .pdfDocument ("agriculture_report_" ++ report_type ++ "_" ++ date ++ ".pdf")
      (buildStory s report_type date)

/-- Response of `views.download_parcel_report`: a PDF attachment, or the
CSV fallback attachment when ReportLab is missing. -/
inductive ParcelReportResponse where
  | pdf (filename : String) (story : List StoryElem)
  | csv (filename : String) (rows : List (List Cell))
deriving DecidableEq, Repr

/-- Whether the parcel-report response is the CSV fallback download. -/
def ParcelReportResponse.isCsvDownload : ParcelReportResponse → Bool
  | .csv _ _ => true
  | .pdf _ _ => false

/-- The Field/Value rows of the parcel report (same data feeds the CSV
fallback and the PDF table): id, areas, soil display label, holder name,
region name with the `N/A` guard. -/
def parcelFieldRows (s : Store) (p : LandParcel) : List (List Cell) :=
  [[Cell.s "Parcel ID", Cell.s p.parcel_id],
   [Cell.s "Total Area", Cell.area p.total_area],
   [Cell.s "Cultivated Area", Cell.area p.cultivated_area],
   [Cell.s "Soil Type", Cell.s (soilTypeDisplay p.soil_type)],
   [Cell.s "Land Holder", Cell.s (((holderOf s p).map (fun h => h.name)).getD "")],
   [Cell.s "Region", Cell.s ((parcelRegionName s p).getD "N/A")]]

/-- `views.download_parcel_report` for a parcel already resolved by
`get_object_or_404`. -/
def download_parcel_report (reportlabAvailable : Bool) (s : Store)
    (p : LandParcel) : ParcelReportResponse :=
  if !reportlabAvailable then
    .csv ("parcel_" ++ p.parcel_id ++ "_report.csv")
      ([[Cell.s "Field", Cell.s "Value"]] ++ parcelFieldRows s p)
  else
    .pdf ("parcel_" ++ p.parcel_id ++ "_report.pdf")
      ([.para ("Land Parcel Report - " ++ p.parcel_id), .spacer,
        .table (parcelFieldRows s p)])

/-! ## `views.export_data` -/

/-- Column names of the `land_parcels` export queryset, in `.values(...)`
order. -/
def landParcelHeaders : List String :=
  ["parcel_id", "total_area", "cultivated_area", "soil_type",
   "land_holder__name", "land_holder__region__name"]

/-- One `land_parcels` export record. -/
def landParcelRecord (s : Store) (p : LandParcel) : List Cell :=
  [Cell.s p.parcel_id, Cell.num p.total_area, Cell.num p.cultivated_area,
   Cell.s p.soil_type,
   (match (holderOf s p).map (fun h => h.name) with
    | some n => Cell.s n
    | none => Cell.null),
   (match parcelRegionName s p with
    | some n => Cell.s n
    | none => Cell.null)]

/-- Column names of the `cropping_patterns` export queryset. -/
def croppingPatternHeaders : List String :=
  ["crop__name", "year", "season", "area_allocated", "yield_amount",
   "revenue", "land_parcel__parcel_id"]

/-- One `cropping_patterns` export record. -/
def croppingPatternRecord (s : Store) (cp : CroppingPattern) : List Cell :=
  [(match cropNameOf s cp with
    | some n => Cell.s n
    | none => Cell.null),
   Cell.int cp.year, Cell.s cp.season, Cell.num cp.area_allocated,
   Cell.num cp.yield_amount, Cell.num cp.revenue,
   (match (parcelOfPattern s cp).map (fun p => p.parcel_id) with
    | some pid => Cell.s pid
    | none => Cell.null)]

/-- Column names of the `irrigation_systems` export queryset. -/
def irrigationHeaders : List String :=
  ["system_type", "efficiency_rating", "annual_water_usage",
   "land_parcel__parcel_id"]

/-- One `irrigation_systems` export record. -/
def irrigationRecord (s : Store) (ir : IrrigationSystem) : List Cell :=
  [Cell.s ir.system_type, Cell.int ir.efficiency_rating,
   Cell.num ir.annual_water_usage,
   (match (parcelOfIrrigation s ir).map (fun p => p.parcel_id) with
    | some pid => Cell.s pid
    | none => Cell.null)]

/-- `pd.DataFrame(list(records))` followed by `to_csv(index=False)` (or
`to_excel`): the header row carries the frame's columns, which are the
record keys when at least one record exists and are absent when the record
list is empty — an empty queryset therefore yields a single empty header
row and no data rows, not the column names. -/
def dfRows (headers : List String) (records : List (List Cell)) :
    List (List Cell) :=
  (if records.isEmpty then ([] : List Cell) else headers.map Cell.s) :: records

/-- The summary block of `generate_comprehensive_report`. -/
structure ComprehensiveSummary where
  total_land_holders : Nat
  total_parcels : Nat
  total_cultivated_area : ℚ
  total_revenue : ℚ
deriving DecidableEq, Repr

/-- The JSON payload of `views.generate_comprehensive_report`. -/
structure ComprehensiveData where
  summary : ComprehensiveSummary
  land_analysis : List OwnershipGroup
  crop_analysis : List CropReportRow
  irrigation_analysis : List IrrGroup
deriving DecidableEq, Repr

/-- Responses produced by `views.export_data`. -/
inductive ExportResponse where
  | csvFile (filename : String) (rows : List (List Cell))
  | excelFile (filename : String) (rows : List (List Cell))
  | jsonFile (filename : String) (records : List (List Cell))
  | jsonComprehensive (filename : String) (data : ComprehensiveData)
  | jsonError (status : Nat) (error : String)
deriving DecidableEq, Repr

/-- `views.generate_comprehensive_report`: a JSON attachment bundling the
summary counts and the three grouped analyses (no stored ordering is
applied to `crop_analysis` here, and no slice). -/
def generate_comprehensive_report (s : Store) : ExportResponse :=
  .jsonComprehensive "comprehensive_agricultural_report.json"
    { summary :=
        { total_land_holders := s.holders.length
          total_parcels := s.parcels.length
          total_cultivated_area := (djSum (s.parcels.map (fun p => p.cultivated_area))).getD 0
          total_revenue := (djSum (s.patterns.map (fun cp => cp.revenue))).getD 0 }
      land_analysis := ownershipGroups s
      crop_analysis :=
        (groupKeys s.patterns (fun cp => cropNameOf s cp)).map fun nm =>
          let grp := s.patterns.filter (fun cp => cropNameOf s cp = nm)
          { crop_name := nm
            total_area := (grp.map (fun cp => cp.area_allocated)).sum
            total_yield := (grp.map (fun cp => cp.yield_amount)).sum
            total_revenue := (grp.map (fun cp => cp.revenue)).sum }
      irrigation_analysis := irrigationGroups s.irrigations }

/-- Serialize an export data set in the requested format: `csv` and
`excel` go through the data frame (header row plus records); anything
else defaults to the JSON attachment of the raw records. -/
def formatExport (filename : String) (headers : List String)
    (records : List (List Cell)) (format_type : String) : ExportResponse :=
  if format_type = "csv" then
    .csvFile (filename ++ ".csv") (dfRows headers records)
  else if format_type = "excel" then
    .excelFile (filename ++ ".xlsx") (dfRows headers records)
  else
    .jsonFile (filename ++ ".json") records

/-- `views.export_data`: dispatch on `data_type`, with the unknown-type
branch answering HTTP 400 `Invalid data type`.  The view only reads the
store; the returned store is the (unchanged) entity state after the
request. -/
def export_data (s : Store) (data_type format_type : String) :
    Store × ExportResponse :=
  if data_type = "land_parcels" then
    (s, formatExport "land_parcels" landParcelHeaders
          (s.parcels.map (landParcelRecord s)) format_type)
  else if data_type = "cropping_patterns" then
    (s, formatExport "cropping_patterns" croppingPatternHeaders
          (s.patterns.map (croppingPatternRecord s)) format_type)
  else if data_type = "irrigation_systems" then
    (s, formatExport "irrigation_systems" irrigationHeaders
          (s.irrigations.map (irrigationRecord s)) format_type)
  else if data_type = "comprehensive_report" then
    (s, generate_comprehensive_report s)
  else
    (s, .jsonError 400 "Invalid data type")

/-! ## The grouping partition lemma

A grouped query's rows partition the scoped records: any weight summed
over the per-key groups equals the weight summed over all records. -/

/-- A list's length as a sum of unit weights. -/
theorem sum_map_one {α : Type} (l : List α) :
    (l.map fun _ => (1 : ℕ)).sum = l.length := by
  induction l with
  | nil => rfl
  | cons a l ih => simp [ih, Nat.add_comm]

/-- Filtering for the key of a record keeps that record. -/
theorem filter_key_cons_self {α κ : Type} [DecidableEq κ]
    (l : List α) (key : α → κ) (a : α) :
    ((a :: l).filter fun x => key x = key a) =
      a :: (l.filter fun x => key x = key a) := by
  simp [List.filter_cons]

/-- Filtering for a key different from a record's key skips that record. -/
theorem filter_key_cons_ne {α κ : Type} [DecidableEq κ]
    (l : List α) (key : α → κ) (a : α) (k : κ) (hk : k ≠ key a) :
    ((a :: l).filter fun x => key x = k) = l.filter fun x => key x = k := by
  have hne : ¬ key a = k := fun hak => hk hak.symm
  simp [List.filter_cons, hne]

/-- Partition lemma: summing any additive weight over the groups of a
grouped query (`groupKeys` plus per-key filters) recovers the sum of the
weight over all records. -/
theorem sum_groups_eq {α κ M : Type} [DecidableEq κ] [AddCommMonoid M]
    (l : List α) (key : α → κ) (w : α → M) :
    ((groupKeys l key).map fun k =>
      ((l.filter fun x => key x = k).map w).sum).sum = (l.map w).sum := by
  induction l with
  | nil => simp [groupKeys]
  | cons a l ih =>
    by_cases h : key a ∈ l.map key
    · have hK : groupKeys (a :: l) key = groupKeys l key := by
        simp only [groupKeys, List.map_cons]
        exact List.dedup_cons_of_mem h
      rw [hK]
      have hmem : key a ∈ groupKeys l key := List.mem_dedup.mpr h
      have hnd : (groupKeys l key).Nodup := List.nodup_dedup _
      have hperm : List.Perm (groupKeys l key)
          (key a :: (groupKeys l key).erase (key a)) :=
        List.perm_cons_erase hmem
      have herase : ∀ fgrp : κ → M,
          ((groupKeys l key).map fgrp).sum =
            fgrp (key a) + (((groupKeys l key).erase (key a)).map fgrp).sum := by
        intro fgrp
        rw [List.Perm.sum_eq (hperm.map fgrp)]
        simp
      rw [herase fun k => (((a :: l).filter fun x => key x = k).map w).sum,
          filter_key_cons_self l key a]
      have hmaps :
          (((groupKeys l key).erase (key a)).map fun k =>
            (((a :: l).filter fun x => key x = k).map w).sum) =
          (((groupKeys l key).erase (key a)).map fun k =>
            ((l.filter fun x => key x = k).map w).sum) := by
        refine List.map_congr_left fun k hk => ?_
        have hne : k ≠ key a := ((hnd.mem_erase_iff).mp hk).1
        rw [filter_key_cons_ne l key a k hne]
      rw [hmaps]
      have hsplit := herase fun k => ((l.filter fun x => key x = k).map w).sum
      rw [hsplit] at ih
      simp only [List.map_cons, List.sum_cons]
      rw [add_assoc, ih]
    · have hK : groupKeys (a :: l) key = key a :: groupKeys l key := by
        simp only [groupKeys, List.map_cons]
        exact List.dedup_cons_of_not_mem h
      rw [hK]
      simp only [List.map_cons, List.sum_cons]
      rw [filter_key_cons_self l key a]
      have hnil : (l.filter fun x => key x = key a) = [] := by
        refine List.filter_eq_nil_iff.mpr fun x hx => ?_
        simp only [decide_eq_true_eq]
        exact fun hxa => h (hxa ▸ List.mem_map_of_mem key hx)
      have hmaps :
          ((groupKeys l key).map fun k =>
            (((a :: l).filter fun x => key x = k).map w).sum) =
          ((groupKeys l key).map fun k =>
            ((l.filter fun x => key x = k).map w).sum) := by
        refine List.map_congr_left fun k hk => ?_
        have hkl : k ∈ l.map key := List.mem_dedup.mp hk
        have hne : k ≠ key a := fun hka => h (hka ▸ hkl)
        rw [filter_key_cons_ne l key a k hne]
      rw [hmaps, hnil, ih]
      simp

/-! ## Concrete stores used as test inputs -/

/-- Two crops, one pattern with zero allocated area and one with positive
area: exercises the crop-productivity chart guard. -/
def chartGuardStore : Store :=
  { regions := [⟨1, "North", "N1", 100⟩]
    holders := [⟨1, "Holder A", "individual", 1⟩]
    parcels := [⟨1, 1, "P-1", 10, 5, "loamy"⟩]
    irrigations := []
    crops := [⟨1, "Alpha", "cereal", "kharif"⟩, ⟨2, "Beta", "cereal", "kharif"⟩]
    patterns :=
      [⟨1, 1, 1, 2024, "kharif", 0, 5, 100⟩,
       ⟨2, 1, 2, 2024, "kharif", 4, 8, 200⟩] }

/-- One region and nothing else: a region that exists but has no parcels. -/
def emptyRegionStore : Store :=
  { regions := [⟨1, "North", "N1", 100⟩]
    holders := [], parcels := [], irrigations := [], crops := [], patterns := [] }

/-- One crop with two cropping patterns of positive allocated area. -/
def cropRatioStore : Store :=
  { regions := [⟨1, "North", "N1", 100⟩]
    holders := [⟨1, "Holder A", "individual", 1⟩]
    parcels := [⟨1, 1, "P-1", 10, 5, "loamy"⟩]
    irrigations := []
    crops := [⟨1, "Alpha", "cereal", "kharif"⟩]
    patterns :=
      [⟨1, 1, 1, 2023, "kharif", 2, 4, 100⟩,
       ⟨2, 1, 1, 2024, "kharif", 3, 6, 150⟩] }

/-! ## Claim theorems -/

/-- C1: with an empty entity store, `calculate_land_utilization_efficiency`
returns all-zero metrics and `api_land_stats` returns empty distribution
lists with `success` status, for every filter scope — the aggregations
yield safe defaults rather than failing. -/
theorem empty_store_aggregation_defaults :
    calculate_land_utilization_efficiency [] =
      { total_land := 0, cultivated_land := 0, utilization_rate := 0,
        uncultivated_land := 0 } ∧
    ∀ (region_id : Option Nat) (soil_type : Option String) (time_period : String),
      api_land_stats emptyStore region_id soil_type time_period =
        { soil_distribution := [], irrigation_distribution := [],
          crop_distribution := [], region_stats := [], status := "success" } := by
  constructor
  · simp [calculate_land_utilization_efficiency, djSum]
  · intro region_id soil_type time_period
    cases region_id <;> cases soil_type <;> rfl

/-- C4 counterexample: `LandParcelForm.clean` accepts `total_area = 0,
cultivated_area = 5` (Python truthiness skips the comparison when either
area is zero) and accepts a negative cultivated area, so the claimed
invariant `0 ≤ cultivated_area ≤ total_area` fails on accepted input. -/
theorem cultivated_area_invariant_counterexample :
    LandParcelForm.clean 0 5 = true ∧
    LandParcelForm.clean 10 (-1) = true ∧
    ¬ ((0 : ℚ) ≤ 5 ∧ (5 : ℚ) ≤ 0) ∧
    ¬ ((0 : ℚ) ≤ -1) := by decide

/-- C4 (amended): when both submitted areas are nonzero, the form accepts
the submission exactly when `cultivated_area ≤ total_area`; no lower-bound
check exists, and the zero cases bypass the comparison entirely. -/
theorem cultivated_area_invariant_nonzero (total_area cultivated_area : ℚ)
    (ht : total_area ≠ 0) (hc : cultivated_area ≠ 0) :
    LandParcelForm.clean total_area cultivated_area = true ↔
      cultivated_area ≤ total_area := by
  unfold LandParcelForm.clean
  rw [if_pos ⟨ht, hc⟩]
  by_cases hgt : cultivated_area > total_area
  · simp [hgt, not_le.mpr hgt]
  · simp [hgt, le_of_not_lt hgt]

/-- C4 witness: the amended invariant instantiated at a nonzero parcel. -/
theorem cultivated_area_invariant_nonzero_witness :
    LandParcelForm.clean 10 5 = true ↔ (5 : ℚ) ≤ 10 :=
  cultivated_area_invariant_nonzero 10 5 (by norm_num) (by norm_num)

/-- The counts of a soil distribution sum to the number of grouped
parcels. -/
theorem soilDistribution_count_sum (ps : List LandParcel) :
    ((soilDistribution ps).map (fun g => g.count)).sum = ps.length := by
  have h := sum_groups_eq ps (fun p => p.soil_type) (fun _ => (1 : ℕ))
  simp only [sum_map_one] at h
  simpa [soilDistribution, List.map_map, Function.comp] using h

/-- The per-group areas of a soil distribution sum to the total grouped
area. -/
theorem soilDistribution_area_sum (ps : List LandParcel) :
    ((soilDistribution ps).map (fun g => g.total_area)).sum =
      (ps.map fun p => p.total_area).sum := by
  have h := sum_groups_eq ps (fun p => p.soil_type) (fun p => p.total_area)
  simpa [soilDistribution, List.map_map, Function.comp] using h

/-- C5: for every store state and filter scope, the soil distribution
partitions the scoped parcels — group counts sum to the scoped parcel
count, and group areas sum to the scoped total area. -/
theorem soil_distribution_partition (s : Store) (region_id : Option Nat)
    (soil_type : Option String) :
    ((soilDistribution (filterParcels s region_id soil_type)).map
        (fun g => g.count)).sum = (filterParcels s region_id soil_type).length ∧
    ((soilDistribution (filterParcels s region_id soil_type)).map
        (fun g => g.total_area)).sum =
      ((filterParcels s region_id soil_type).map fun p => p.total_area).sum :=
  ⟨soilDistribution_count_sum _, soilDistribution_area_sum _⟩

/-- C6 counterexample: exporting `land_parcels` as CSV from an empty store
yields a single empty row — `pd.DataFrame` built from an empty record list
has no columns, so the emitted header row is not the column-name row the
claim requires. -/
theorem export_empty_csv_counterexample :
    (export_data emptyStore "land_parcels" "csv").2 =
      ExportResponse.csvFile "land_parcels.csv" [[]] ∧
    ([([] : List Cell)] : List (List Cell)) ≠ [landParcelHeaders.map Cell.s] := by
  constructor
  · rfl
  · decide

/-- C6 (amended): exporting `land_parcels` as CSV with zero parcels yields
a CSV with exactly one row, which is empty (no column names), and no data
rows. -/
theorem export_empty_csv_no_header (s : Store) (hp : s.parcels = []) :
    (export_data s "land_parcels" "csv").2 =
      ExportResponse.csvFile "land_parcels.csv" [[]] := by
  simp [export_data, formatExport, dfRows, hp]

/-- C6 witness: the amended export behaviour at the empty store. -/
theorem export_empty_csv_no_header_witness :
    (export_data emptyStore "land_parcels" "csv").2 =
      ExportResponse.csvFile "land_parcels.csv" [[]] :=
  export_empty_csv_no_header emptyStore rfl

/-- C7 counterexample: with the document-generation library unavailable,
the analysis-report endpoint does not degrade to a tabular export — it
flashes an error and redirects, producing no downloadable result. -/
theorem analysis_report_no_fallback_counterexample :
    download_analysis_report false emptyStore "summary" "2025-01-01" =
      AnalysisReportResponse.redirectWithError "analysis_reports"
        "PDF generation is not available. Please install ReportLab." ∧
    (download_analysis_report false emptyStore "summary" "2025-01-01").isDownload
      = false := ⟨rfl, rfl⟩

/-- C7 (amended): when document generation is unavailable, only the parcel
report falls back to a CSV download (with no substitution notice beyond
the file itself); the analysis-report endpoint aborts with an error
message and a redirect instead of any download. -/
theorem report_unavailable_fallback (s : Store) (p : LandParcel)
    (report_type date : String) :
    (download_parcel_report false s p).isCsvDownload = true ∧
    download_parcel_report false s p =
      ParcelReportResponse.csv ("parcel_" ++ p.parcel_id ++ "_report.csv")
        ([[Cell.s "Field", Cell.s "Value"]] ++ parcelFieldRows s p) ∧
    download_analysis_report false s report_type date =
      AnalysisReportResponse.redirectWithError "analysis_reports"
        "PDF generation is not available. Please install ReportLab." :=
  ⟨rfl, rfl, rfl⟩

/-- C10: for every `data_type` outside the four supported values,
`export_data` answers HTTP 400 with the JSON error `Invalid data type`
and leaves the entity store unchanged. -/
theorem export_invalid_data_type_400 (s : Store) (format_type data_type : String)
    (h : data_type ∉ ["land_parcels", "cropping_patterns",
      "irrigation_systems", "comprehensive_report"]) :
    export_data s data_type format_type =
      (s, ExportResponse.jsonError 400 "Invalid data type") := by
  simp only [List.mem_cons, List.not_mem_nil, or_false, not_or] at h
  obtain ⟨h1, h2, h3, h4⟩ := h
  simp [export_data, h1, h2, h3, h4]

/-- C10 witness: the invalid-type branch at a concrete unsupported
`data_type`. -/
theorem export_invalid_data_type_400_witness :
    export_data emptyStore "bogus" "csv" =
      (emptyStore, ExportResponse.jsonError 400 "Invalid data type") :=
  export_invalid_data_type_400 emptyStore "csv" "bogus" (by decide)

/-- C2 counterexample: in `chartGuardStore` the Alpha group has zero total
allocated area, yet the chart applies the productivity division to it,
because the source's guard only asks whether ANY group has positive area. -/
theorem crop_productivity_guard_counterexample :
    ({ crop_name := some "Alpha", total_yield := 5, total_area := 0 } : CropChartGroup)
      ∈ productivityDivisionGroups chartGuardStore ∧
    ¬ (0 : ℚ) <
      ({ crop_name := some "Alpha", total_yield := 5, total_area := 0 } : CropChartGroup).total_area := by
  have hkeys : groupKeys chartGuardStore.patterns
      (fun cp => cropNameOf chartGuardStore cp) = [some "Alpha", some "Beta"] := by
    decide
  have hf1 : chartGuardStore.patterns.filter
      (fun cp => cropNameOf chartGuardStore cp = some "Alpha") =
      [⟨1, 1, 1, 2024, "kharif", 0, 5, 100⟩] := by decide
  have hf2 : chartGuardStore.patterns.filter
      (fun cp => cropNameOf chartGuardStore cp = some "Beta") =
      [⟨2, 1, 2, 2024, "kharif", 4, 8, 200⟩] := by decide
  have hgroups : cropChartGroups chartGuardStore =
      [{ crop_name := some "Alpha", total_yield := 5, total_area := 0 },
       { crop_name := some "Beta", total_yield := 8, total_area := 4 }] := by
    unfold cropChartGroups
    rw [hkeys]
    simp only [List.map_cons, List.map_nil]
    rw [hf1, hf2]
    norm_num [List.take]
  constructor
  · unfold productivityDivisionGroups
    rw [hgroups]
    decide
  · decide

/-- C2 (amended): the productivity division is applied to a crop group
exactly when that group is among the (at most 10) chart groups and at
least one chart group — not necessarily that one — has positive total
area; a zero-area group is not individually skipped. -/
theorem crop_productivity_division_guard (s : Store) (g : CropChartGroup) :
    g ∈ productivityDivisionGroups s ↔
      g ∈ cropChartGroups s ∧
        (cropChartGroups s).any (fun h => decide (0 < h.total_area)) = true := by
  unfold productivityDivisionGroups
  by_cases hc : (!(cropChartGroups s).isEmpty &&
      (cropChartGroups s).any fun h => decide (0 < h.total_area)) = true
  · rw [if_pos hc]
    have h2 := (Bool.and_eq_true _ _).mp hc
    exact ⟨fun hg => ⟨hg, h2.2⟩, fun hg => hg.1⟩
  · rw [if_neg hc]
    simp only [List.not_mem_nil, false_iff, not_and]
    intro hg hany
    apply hc
    refine (Bool.and_eq_true _ _).mpr ⟨?_, hany⟩
    cases hcc : cropChartGroups s with
    | nil => rw [hcc] at hg; exact absurd hg (List.not_mem_nil g)
    | cons a t => rfl

/-- A region scope with no parcels also scopes no cropping patterns: every
pattern reaches its region through an existing parcel. -/
theorem regionScopedPatterns_nil (s : Store) (rid : Nat)
    (hps : regionScopedParcels s rid = []) :
    regionScopedPatterns s rid = [] := by
  refine List.filter_eq_nil_iff.mpr fun cp hcp => ?_
  simp only [beq_iff_eq]
  intro heq
  cases hp : parcelOfPattern s cp with
  | none => simp [patternRegionId, hp] at heq
  | some p =>
    simp only [patternRegionId, hp] at heq
    have hpmem : p ∈ s.parcels := List.mem_of_find?_eq_some hp
    have hmem : p ∈ regionScopedParcels s rid := by
      refine List.mem_filter.mpr ⟨hpmem, ?_⟩
      simp [heq]
    rw [hps] at hmem
    exact absurd hmem (List.not_mem_nil p)

/-- A region scope with no parcels also scopes no irrigation systems. -/
theorem regionScopedIrrigations_nil (s : Store) (rid : Nat)
    (hps : regionScopedParcels s rid = []) :
    regionScopedIrrigations s rid = [] := by
  refine List.filter_eq_nil_iff.mpr fun ir hir => ?_
  simp only [beq_iff_eq]
  intro heq
  cases hp : parcelOfIrrigation s ir with
  | none => simp [irrigationRegionId, hp] at heq
  | some p =>
    simp only [irrigationRegionId, hp] at heq
    have hpmem : p ∈ s.parcels := List.mem_of_find?_eq_some hp
    have hmem : p ∈ regionScopedParcels s rid := by
      refine List.mem_filter.mpr ⟨hpmem, ?_⟩
      simp [heq]
    rw [hps] at hmem
    exact absurd hmem (List.not_mem_nil p)

/-- C3 counterexample: for the existing region 1 with zero parcels,
`region_analysis` reports `total_area = NULL` (SQL `Sum` over an empty
set), not the `0` the claim states. -/
theorem region_analysis_zero_parcels_counterexample :
    (region_analysis emptyRegionStore 1).map (fun r => r.region_stats.total_area)
      = some none ∧
    some (none : Option ℚ) ≠ some (some (0 : ℚ)) := by
  constructor
  · rfl
  · decide

/-- C3 (amended): for an existing region with zero parcels,
`region_analysis` returns `total_parcels = 0`, `NULL` total area, `NULL`
average parcel size and `NULL` cultivated percentage, with empty crop,
soil and irrigation breakdowns — and no error. -/
theorem region_analysis_zero_parcels (s : Store) (rid : Nat)
    (hex : (s.regions.any fun r => r.id == rid) = true)
    (hps : regionScopedParcels s rid = []) :
    region_analysis s rid = some
      { region_stats :=
          { total_parcels := 0, total_area := none, avg_parcel_size := none,
            cultivated_percentage := none }
        top_crops := [], soil_distribution := [], irrigation_systems := [] } := by
  unfold region_analysis
  rw [if_pos hex, hps, regionCropGroups, regionScopedPatterns_nil s rid hps,
      regionScopedIrrigations_nil s rid hps]
  rfl

/-- C3 witness: the amended regional analysis at the one-region store. -/
theorem region_analysis_zero_parcels_witness :
    region_analysis emptyRegionStore 1 = some
      { region_stats :=
          { total_parcels := 0, total_area := none, avg_parcel_size := none,
            cultivated_percentage := none }
        top_crops := [], soil_distribution := [], irrigation_systems := [] } :=
  region_analysis_zero_parcels emptyRegionStore 1 (by decide) (by decide)

/-- C8: for every `report_type` outside the five supported values, the
report endpoint (with document generation available) succeeds with a PDF
attachment whose story is the fixed title block followed by exactly one
`Invalid report type selected.` notice — not an error response. -/
theorem invalid_report_type_notice (s : Store) (report_type date : String)
    (h : report_type ∉ ["summary", "land_analysis", "crop_analysis",
      "irrigation_analysis", "comprehensive"]) :
    download_analysis_report true s report_type date =
      AnalysisReportResponse.pdfDocument
        ("agriculture_report_" ++ report_type ++ "_" ++ date ++ ".pdf")
        (titleBlock report_type date ++ [.para "Invalid report type selected."]) := by
  simp only [List.mem_cons, List.not_mem_nil, or_false, not_or] at h
  obtain ⟨h1, h2, h3, h4, h5⟩ := h
  simp [download_analysis_report, buildStory, h1, h2, h3, h4, h5]

/-- C8 witness: the invalid-report-type document at a concrete unsupported
type. -/
theorem invalid_report_type_notice_witness :
    download_analysis_report true emptyStore "monthly" "2025-01-01" =
      AnalysisReportResponse.pdfDocument
        ("agriculture_report_" ++ "monthly" ++ "_" ++ "2025-01-01" ++ ".pdf")
        (titleBlock "monthly" "2025-01-01" ++ [.para "Invalid report type selected."]) :=
  invalid_report_type_notice emptyStore "monthly" "2025-01-01" (by decide)

/-- Dividing the `Avg` of one column by the `Avg` of another over the same
rows equals the ratio of the column sums, whenever there are rows and the
denominator sum is nonzero. -/
theorem djAvg_div_eq_sum_ratio (ys as : List ℚ) (hlen : ys.length = as.length)
    (hne : as ≠ []) (ha : as.sum ≠ 0) :
    sqlDiv (djAvg ys) (djAvg as) = some (ys.sum / as.sum) := by
  have hasE : as.isEmpty = false := by
    cases as with
    | nil => exact absurd rfl hne
    | cons a t => rfl
  have hysE : ys.isEmpty = false := by
    cases hys : ys with
    | nil => rw [hys] at hlen; cases as with
      | nil => exact absurd rfl hne
      | cons a t => exact absurd hlen.symm (by simp)
    | cons a t => rfl
  have hlenQ : ((as.length : ℚ)) ≠ 0 := by
    have h0 : as.length ≠ 0 := fun h0 => hne (List.length_eq_zero.mp h0)
    exact_mod_cast h0
  have hq : as.sum / (as.length : ℚ) ≠ 0 := div_ne_zero ha hlenQ
  simp only [djAvg, hysE, hasE, Bool.false_eq_true, if_false, sqlDiv,
    if_neg hq, Option.some.injEq, hlen]
  rw [div_div_div_cancel_right₀ hlenQ]

/-- C9: the `avg_yield_per_hectare` statistic of `crop_analysis` —
computed in the source as `Avg(yield_amount) / Avg(area_allocated)` —
equals total yield divided by total allocated area for the crop, whenever
the crop has at least one pattern and nonzero total area. -/
theorem yield_per_hectare_eq_total_ratio (s : Store) (cid : Nat)
    (hne : cropScopedPatterns s cid ≠ [])
    (ha : ((cropScopedPatterns s cid).map fun cp => cp.area_allocated).sum ≠ 0) :
    (crop_stats s cid).avg_yield_per_hectare =
      some (((cropScopedPatterns s cid).map fun cp => cp.yield_amount).sum /
            ((cropScopedPatterns s cid).map fun cp => cp.area_allocated).sum) := by
  have hmne : ((cropScopedPatterns s cid).map fun cp => cp.area_allocated) ≠ [] := by
    intro h0
    exact hne (List.map_eq_nil_iff.mp h0)
  have hlen : ((cropScopedPatterns s cid).map fun cp => cp.yield_amount).length
      = ((cropScopedPatterns s cid).map fun cp => cp.area_allocated).length := by
    simp
  exact djAvg_div_eq_sum_ratio _ _ hlen hmne ha

/-- C9 witness: yield per hectare at a crop with patterns of areas 2 and 3
and yields 4 and 6 — the statistic equals `10 / 5 = 2`. -/
theorem yield_per_hectare_eq_total_ratio_witness :
    (crop_stats cropRatioStore 1).avg_yield_per_hectare = some 2 := by
  have hcps : cropScopedPatterns cropRatioStore 1 =
      [⟨1, 1, 1, 2023, "kharif", 2, 4, 100⟩,
       ⟨2, 1, 1, 2024, "kharif", 3, 6, 150⟩] := by decide
  rw [yield_per_hectare_eq_total_ratio cropRatioStore 1 (by decide)
    (by rw [hcps]; norm_num)]
  rw [hcps]
  norm_num

end Agrisite
